import Mathlib

/-!
Verification of the Streamlit dashboard `src/app.py` of the ai-hedge-fund
repository.  The file shallowly embeds the Python code: Python values are the
inductive `PyVal`, Python exceptions are `PyExc`, Streamlit calls are recorded
as a list of `UIEvent`s, and each Python function becomes a Lean function in a
writer/exception monad (`UiM` for pure UI code, `RunM` for code that may call
the compiled pipeline, whose invocations are counted).  External library
behaviour (`json.loads`, the compiled langgraph agent) is passed in as a
function parameter.
-/

/-- Python exceptions that the embedded code can raise. -/
inductive PyExc : Type
  | keyError (key : String)
  | indexError
  | typeError
  | valueError
  | attributeError (attr : String)
  | nameError (name : String)
  deriving DecidableEq, Repr

/-- Python values as they occur in this program: JSON-like data. -/
inductive PyVal : Type
  | none
  | bool (b : Bool)
  | num (q : ℚ)
  | str (s : String)
  | list (xs : List PyVal)
  | dict (entries : List (String × PyVal))

/-- Whether a Python value is a dictionary (`isinstance(x, dict)`). -/
def PyVal.isDict : PyVal → Bool
  | PyVal.dict _ => true
  | _ => false

/-- The Streamlit calls the code performs, recorded as events. -/
inductive UIEvent : Type
  | markdown (s : String)
  | progress (q : ℚ)
  | error (s : String)
  | info (s : String)
  | header (s : String)
  | subheader (s : String)
  | divider
  | spinner (s : String)
  | expander (s : String)
  | warning (s : String)
  deriving DecidableEq, Repr

/-- Writer/exception monad for pure UI code: the Streamlit events emitted so
far together with normal termination or a raised exception. -/
structure UiM (α : Type) : Type where
  events : List UIEvent
  outcome : Except PyExc α

def UiM.pure {α : Type} (a : α) : UiM α := ⟨[], Except.ok a⟩

def UiM.bind {α β : Type} (x : UiM α) (f : α → UiM β) : UiM β :=
  match x.outcome with
  | Except.error e => ⟨x.events, Except.error e⟩
  | Except.ok a => ⟨x.events ++ (f a).events, (f a).outcome⟩

/-- A single Streamlit call (st.markdown, st.progress, ...). -/
def uiEmit (ev : UIEvent) : UiM Unit := ⟨[ev], Except.ok ()⟩

/-- Raising a Python exception. -/
def uiThrow {α : Type} (e : PyExc) : UiM α := ⟨[], Except.error e⟩

/-- Evaluating an expression that may raise but emits nothing. -/
def UiM.liftExcept {α : Type} (x : Except PyExc α) : UiM α := ⟨[], x⟩

/-- Python `try: body except: handler`: events already emitted by the body
stay on screen, then the handler runs. -/
def UiM.tryCatch {α : Type} (body : UiM α) (handler : PyExc → UiM α) : UiM α :=
  match body.outcome with
  | Except.ok _ => body
  | Except.error e => ⟨body.events ++ (handler e).events, (handler e).outcome⟩

/-- Monad for code that may additionally invoke the compiled pipeline;
`invokes` counts how many times the external agent was invoked. -/
structure RunM (α : Type) : Type where
  events : List UIEvent
  invokes : ℕ
  outcome : Except PyExc α

def RunM.pure {α : Type} (a : α) : RunM α := ⟨[], 0, Except.ok a⟩

def RunM.bind {α β : Type} (x : RunM α) (f : α → RunM β) : RunM β :=
  match x.outcome with
  | Except.error e => ⟨x.events, x.invokes, Except.error e⟩
  | Except.ok a => ⟨x.events ++ (f a).events, x.invokes + (f a).invokes, (f a).outcome⟩

def RunM.liftExcept {α : Type} (x : Except PyExc α) : RunM α := ⟨[], 0, x⟩

/-- UI-only code does not invoke the pipeline. -/
def liftUi {α : Type} (x : UiM α) : RunM α := ⟨x.events, 0, x.outcome⟩

/-- Python `try`/`except` at the `RunM` level; the handler is UI-only. -/
def RunM.tryCatch {α : Type} (body : RunM α) (handler : PyExc → UiM α) : RunM α :=
  match body.outcome with
  | Except.ok _ => body
  | Except.error e => ⟨body.events ++ (handler e).events, body.invokes, (handler e).outcome⟩

/- Projection lemmas for the two monads. -/

theorem UiM.bind_events {α β : Type} (x : UiM α) (f : α → UiM β) :
    (UiM.bind x f).events
      = x.events ++ (match x.outcome with
          | Except.ok a => (f a).events
          | Except.error _ => []) := by
  cases h : x.outcome <;> simp [UiM.bind, h]

theorem UiM.bind_outcome {α β : Type} (x : UiM α) (f : α → UiM β) :
    (UiM.bind x f).outcome
      = (match x.outcome with
          | Except.ok a => (f a).outcome
          | Except.error e => Except.error e) := by
  cases h : x.outcome <;> simp [UiM.bind, h]

theorem RunM.events_bind {α β : Type} (x : RunM α) (f : α → RunM β) :
    (RunM.bind x f).events
      = x.events ++ (match x.outcome with
          | Except.ok a => (f a).events
          | Except.error _ => []) := by
  cases h : x.outcome <;> simp [RunM.bind, h]

theorem RunM.outcome_bind {α β : Type} (x : RunM α) (f : α → RunM β) :
    (RunM.bind x f).outcome
      = (match x.outcome with
          | Except.ok a => (f a).outcome
          | Except.error e => Except.error e) := by
  cases h : x.outcome <;> simp [RunM.bind, h]

theorem RunM.invokes_bind {α β : Type} (x : RunM α) (f : α → RunM β) :
    (RunM.bind x f).invokes
      = x.invokes + (match x.outcome with
          | Except.ok a => (f a).invokes
          | Except.error _ => 0) := by
  cases h : x.outcome <;> simp [RunM.bind, h]

/- Python primitive operations used by `app.py`. -/

/-- The value of a decimal digit string, most significant first. -/
def natOfDigits (cs : List Char) : ℕ :=
  cs.foldl (fun n c => n * 10 + (c.toNat - 48)) 0

/-- Python `float(s)` on a plain decimal string (sign, integer part,
optional fractional part); exponents and special floats are out of scope
for this program.  Numbers are modelled as rationals. -/
def strToRat? (s : String) : Option ℚ :=
  let p : ℚ × List Char :=
    match s.data with
    | '-' :: rest => (-1, rest)
    | '+' :: rest => (1, rest)
    | cs => (1, cs)
  match p.2.splitOn '.' with
  | [ip] =>
      if ip.isEmpty || !ip.all Char.isDigit then Option.none
      else Option.some (p.1 * (natOfDigits ip : ℚ))
  | [ip, fp] =>
      if (ip.isEmpty && fp.isEmpty) || !ip.all Char.isDigit || !fp.all Char.isDigit then
        Option.none
      else Option.some (p.1 * ((natOfDigits ip : ℚ) + (natOfDigits fp : ℚ) / (10 ^ fp.length : ℚ)))
  | _ => Option.none

/-- Rendering of a rational as Python renders the number; the decimal
formatting of non-integral values is abstracted as num/den. -/
def ratStr (q : ℚ) : String :=
  if q.den = 1 then toString q.num ++ ".0" else toString q.num ++ "/" ++ toString q.den

mutual

/-- Python `repr` on the values of this program. -/
def pyRepr : PyVal → String
  | PyVal.none => "None"
  | PyVal.bool b => if b then "True" else "False"
  | PyVal.num q => ratStr q
  | PyVal.str s => "'" ++ s ++ "'"
  | PyVal.list xs => "[" ++ pyReprList xs ++ "]"
  | PyVal.dict es => "\x7b" ++ pyReprDict es ++ "\x7d"

def pyReprList : List PyVal → String
  | [] => ""
  | [x] => pyRepr x
  | x :: xs => pyRepr x ++ ", " ++ pyReprList xs

def pyReprDict : List (String × PyVal) → String
  | [] => ""
  | [(k, v)] => "'" ++ k ++ "': " ++ pyRepr v
  | (k, v) :: es => "'" ++ k ++ "': " ++ pyRepr v ++ ", " ++ pyReprDict es

end

/-- Python `str()` on the values of this program. -/
def pyStr : PyVal → String
  | PyVal.str s => s
  | v => pyRepr v

/-- Python `key.replace('_', ' ')` for the single-character pattern used here. -/
def underscoreToSpace (s : String) : String :=
  String.mk (s.data.map (fun c => if c = '_' then ' ' else c))

/-- Python `s.lower()` (ASCII). -/
def strLower (s : String) : String := String.mk (s.data.map Char.toLower)

/-- Python `s.upper()` (ASCII). -/
def strUpper (s : String) : String := String.mk (s.data.map Char.toUpper)

/-- Python `str.title()`: the first letter of each alphabetic run is
uppercased, the following letters are lowercased. -/
def pyTitle (s : String) : String :=
  (s.data.foldl
    (fun (acc : String × Bool) c =>
      if c.isAlpha then
        (acc.1.push (if acc.2 then c.toLower else c.toUpper), true)
      else (acc.1.push c, false))
    ("", false)).1

/-- `"&nbsp;&nbsp;&nbsp;&nbsp;" * level`. -/
def indentStr (level : ℕ) : String :=
  String.join (List.replicate level "&nbsp;&nbsp;&nbsp;&nbsp;")

/-- Python `float(x)`. -/
def pyFloat : PyVal → Except PyExc ℚ
  | PyVal.num q => Except.ok q
  | PyVal.bool b => Except.ok (if b then 1 else 0)
  | PyVal.str s =>
      match strToRat? s with
      | Option.some q => Except.ok q
      | Option.none => Except.error PyExc.valueError
  | _ => Except.error PyExc.typeError

/-- Python `int(q)` on a float: truncation toward zero. -/
def ratTrunc (q : ℚ) : ℤ :=
  if 0 ≤ q then q.floor else q.ceil

/-- Python truthiness of the values of this program. -/
def pyTruthy : PyVal → Bool
  | PyVal.none => false
  | PyVal.bool b => b
  | PyVal.num q => decide (q ≠ 0)
  | PyVal.str s => decide (s ≠ "")
  | PyVal.list [] => false
  | PyVal.list (_ :: _) => true
  | PyVal.dict [] => false
  | PyVal.dict (_ :: _) => true

/-- Python `d[k]` for a string key. -/
def pySubscript : PyVal → String → Except PyExc PyVal
  | PyVal.dict es, k =>
      match es.lookup k with
      | Option.some v => Except.ok v
      | Option.none => Except.error (PyExc.keyError k)
  | _, _ => Except.error PyExc.typeError

/-- Python `x.lower()`. -/
def pyLower : PyVal → Except PyExc String
  | PyVal.str s => Except.ok (strLower s)
  | _ => Except.error (PyExc.attributeError "lower")

/-- Python `x.upper()`. -/
def pyUpper : PyVal → Except PyExc String
  | PyVal.str s => Except.ok (strUpper s)
  | _ => Except.error (PyExc.attributeError "upper")

/-- Python `x.items()` on the signal map. -/
def pyItems : PyVal → Except PyExc (List (String × PyVal))
  | PyVal.dict es => Except.ok es
  | _ => Except.error (PyExc.attributeError "items")

/-- Worker for `str.split(', ')`: returns the first piece and the later
pieces, so the result is non-empty by construction (as in Python). -/
def splitCS : List Char → List Char → String × List String
  | [], cur => (String.mk cur.reverse, [])
  | ',' :: ' ' :: rest, cur =>
      let p := splitCS rest []
      (String.mk cur.reverse, p.1 :: p.2)
  | c :: rest, cur => splitCS rest (c :: cur)

/-- Python `s.split(', ')`. -/
def pySplitCS (s : String) : List String :=
  (splitCS s.data []).1 :: (splitCS s.data []).2

/-- Python `x.split(', ')`, an attribute error on non-strings. -/
def pySplit : PyVal → Except PyExc (List String)
  | PyVal.str s => Except.ok (pySplitCS s)
  | _ => Except.error (PyExc.attributeError "split")

/-- Python `xs[-1]`. -/
def listLast {α : Type} (xs : List α) : Except PyExc α :=
  match xs.getLast? with
  | Option.some a => Except.ok a
  | Option.none => Except.error PyExc.indexError

/-- Python `str(e)` for the exceptions above (texts abbreviated). -/
def pyExcMessage : PyExc → String
  | PyExc.keyError k => "'" ++ k ++ "'"
  | PyExc.indexError => "list index out of range"
  | PyExc.typeError => "unsupported type"
  | PyExc.valueError => "could not convert string to float"
  | PyExc.attributeError a => "object has no attribute '" ++ a ++ "'"
  | PyExc.nameError n => "local variable '" ++ n ++ "' referenced before assignment"

/- The workflow graph: `create_workflow` from `app.py`. -/

/-- The agent functions wired into the graph; their bodies live outside
this repository, so they are opaque tags. -/
inductive NodeFn : Type
  | identity
  | technical
  | fundamentals
  | sentiment
  | valuation
  | risk
  | portfolio
  deriving DecidableEq, Repr

/-- The langgraph `StateGraph` as used by `create_workflow`: registered
nodes, registered edges, and the entry point. -/
structure StateGraph : Type where
  nodes : List (String × NodeFn)
  edges : List (String × String)
  entry : Option String
  deriving DecidableEq, Repr

def StateGraph.add_node (g : StateGraph) (name : String) (fn : NodeFn) : StateGraph :=
  { g with nodes := g.nodes ++ [(name, fn)] }

def StateGraph.add_edge (g : StateGraph) (a b : String) : StateGraph :=
  { g with edges := g.edges ++ [(a, b)] }

def StateGraph.set_entry_point (g : StateGraph) (n : String) : StateGraph :=
  { g with entry := Option.some n }

/-- langgraph's `END` sentinel node name. -/
def END_NODE : String := "__end__"

/-- The four analyst selection keys (also the default selection). -/
def analystKeys : List String :=
  ["technical_analyst", "fundamentals_analyst", "sentiment_analyst", "valuation_analyst"]

/-- The `analyst_nodes` dictionary of `create_workflow`. -/
def analyst_nodes : List (String × String × NodeFn) :=
  [("technical_analyst", "technical_analyst_agent", NodeFn.technical),
   ("fundamentals_analyst", "fundamentals_agent", NodeFn.fundamentals),
   ("sentiment_analyst", "sentiment_agent", NodeFn.sentiment),
   ("valuation_analyst", "valuation_agent", NodeFn.valuation)]

/-- Python `d[k]` on a dictionary with string keys, raising `KeyError`. -/
def dictGet {α : Type} (d : List (String × α)) (k : String) : Except PyExc α :=
  match d.lookup k with
  | Option.some v => Except.ok v
  | Option.none => Except.error (PyExc.keyError k)

/-- The first `for analyst_key in selected_analysts` loop: add each selected
analyst node and the edge from `start_node` to it. -/
def addAnalystNodes : List String → StateGraph → Except PyExc StateGraph
  | [], workflow => Except.ok workflow
  | analyst_key :: rest, workflow =>
      match dictGet analyst_nodes analyst_key with
      | Except.error e => Except.error e
      | Except.ok p =>
          addAnalystNodes rest ((workflow.add_node p.1 p.2).add_edge "start_node" p.1)

/-- The second loop: connect each selected analyst to risk management. -/
def addRiskEdges : List String → StateGraph → Except PyExc StateGraph
  | [], workflow => Except.ok workflow
  | analyst_key :: rest, workflow =>
      match dictGet analyst_nodes analyst_key with
      | Except.error e => Except.error e
      | Except.ok p => addRiskEdges rest (workflow.add_edge p.1 "risk_management_agent")

/-- `create_workflow(selected_analysts=None)` from `app.py`. -/
def create_workflow (selected_analysts : Option (List String)) : Except PyExc StateGraph :=
  let workflow := StateGraph.add_node ⟨[], [], Option.none⟩ "start_node" NodeFn.identity
  let sel := selected_analysts.getD analystKeys
  match addAnalystNodes sel workflow with
  | Except.error e => Except.error e
  | Except.ok w1 =>
      let w2 := (w1.add_node "risk_management_agent" NodeFn.risk).add_node
        "portfolio_management_agent" NodeFn.portfolio
      match addRiskEdges sel w2 with
      | Except.error e => Except.error e
      | Except.ok w3 =>
          Except.ok (((w3.add_edge "risk_management_agent" "portfolio_management_agent").add_edge
            "portfolio_management_agent" END_NODE).set_entry_point "start_node")

/-- Node name of an analyst key (the first tuple component in
`analyst_nodes`). -/
def nodeName (k : String) : String :=
  ((analyst_nodes.lookup k).map Prod.fst).getD ""

/-- Node function of an analyst key. -/
def nodeFnOf (k : String) : NodeFn :=
  ((analyst_nodes.lookup k).map Prod.snd).getD NodeFn.identity

/-- The graph `create_workflow` builds for a list of valid analyst keys. -/
def goodGraph (sel : List String) : StateGraph :=
  { nodes := ("start_node", NodeFn.identity)
        :: (sel.map (fun k => (nodeName k, nodeFnOf k))
          ++ [("risk_management_agent", NodeFn.risk),
              ("portfolio_management_agent", NodeFn.portfolio)]),
    edges := sel.map (fun k => ("start_node", nodeName k))
        ++ (sel.map (fun k => (nodeName k, "risk_management_agent"))
          ++ [("risk_management_agent", "portfolio_management_agent"),
              ("portfolio_management_agent", END_NODE)]),
    entry := Option.some "start_node" }

/-- Edge relation of a graph. -/
def EdgeRel (g : StateGraph) (a b : String) : Prop := (a, b) ∈ g.edges

/-- A graph is acyclic when no node reaches itself through a non-empty
chain of edges. -/
def AcyclicGraph (g : StateGraph) : Prop :=
  ∀ a : String, ¬ Relation.TransGen (EdgeRel g) a a

/-- Topological rank of the node names occurring in the workflow. -/
def nodeRank (n : String) : ℕ :=
  if n = "start_node" then 0
  else if n = "risk_management_agent" then 2
  else if n = "portfolio_management_agent" then 3
  else if n = END_NODE then 4
  else 1

/- The agent state and `run_hedge_fund`. -/

/-- A chat message; only its content is observed by this code. -/
structure Message : Type where
  content : String
  deriving DecidableEq, Repr

/-- The `data` record of the pipeline state. -/
structure StateData : Type where
  ticker : String
  portfolio : PyVal
  start_date : String
  end_date : String
  analyst_signals : PyVal

/-- The `metadata` record of the pipeline state. -/
structure Metadata : Type where
  show_reasoning : Bool
  deriving DecidableEq, Repr

/-- The langgraph `AgentState` dictionary built by `run_hedge_fund`. -/
structure AgentState : Type where
  messages : List Message
  data : StateData
  metadata : Metadata

/-- The record `run_hedge_fund` returns; it has exactly these two fields. -/
structure RunResult : Type where
  decision : Option PyVal
  analyst_signals : PyVal

/-- The initial state dictionary passed to `agent.invoke` in
`run_hedge_fund`. -/
def initial_state (ticker start_date end_date : String) (portfolio : PyVal)
    (show_reasoning : Bool) : AgentState :=
  { messages := [⟨"Make a trading decision based on the provided data."⟩],
    data := { ticker := ticker, portfolio := portfolio, start_date := start_date,
              end_date := end_date, analyst_signals := PyVal.dict [] },
    metadata := { show_reasoning := show_reasoning } }

/-- `parse_hedge_fund_response` from `app.py`; `loads` is the external
`json.loads`, which either returns a value or raises. -/
def parse_hedge_fund_response (loads : String → Except PyExc PyVal)
    (response : String) : UiM (Option PyVal) :=
  UiM.tryCatch
    (UiM.bind (UiM.liftExcept (loads response)) (fun v => UiM.pure (Option.some v)))
    (fun _ =>
      UiM.bind (uiEmit (UIEvent.error ("Error parsing response: " ++ response)))
        (fun _ => UiM.pure Option.none))

/-- One call of the compiled agent built from a workflow; `invoke` is the
external langgraph runtime, and the call is counted. -/
def callInvoke (invoke : StateGraph → AgentState → Except PyExc AgentState)
    (g : StateGraph) (s : AgentState) : RunM AgentState :=
  ⟨[], 1, invoke g s⟩

/-- `run_hedge_fund` from `app.py`: build the workflow, invoke the compiled
agent once on the initial state, and return the decision (JSON-parse of the
last message) together with the analyst signals of the final state. -/
def run_hedge_fund (loads : String → Except PyExc PyVal)
    (invoke : StateGraph → AgentState → Except PyExc AgentState)
    (ticker start_date end_date : String) (portfolio : PyVal)
    (show_reasoning : Bool) (selected_analysts : Option (List String)) :
    RunM RunResult :=
  RunM.bind (RunM.liftExcept (create_workflow selected_analysts)) (fun workflow =>
  RunM.bind (callInvoke invoke workflow
      (initial_state ticker start_date end_date portfolio show_reasoning)) (fun final_state =>
  RunM.bind (RunM.liftExcept (listLast final_state.messages)) (fun last_message =>
  RunM.bind (liftUi (parse_hedge_fund_response loads last_message.content)) (fun decision =>
  RunM.pure { decision := decision,
              analyst_signals := final_state.data.analyst_signals }))))

/- `display_signal` from `app.py`. -/

/-- The color/label mapping of the `signal` branch:
`{...}.get(str(value).lower(), str(value))`. -/
def signalColor (v : PyVal) : String :=
  match List.lookup (strLower (pyStr v))
      [("bullish", "🟢 Bullish"), ("bearish", "🔴 Bearish"),
       ("neutral", "🟡 Neutral"), ("hold", "🟡 Hold")] with
  | Option.some s => s
  | Option.none => pyStr v

/-- The loop of the `details` branch: one markdown per metric (the
`st.columns` layout itself emits nothing). -/
def emitMetrics : List String → ℕ → UiM Unit
  | [], _ => UiM.pure ()
  | metric :: rest, level =>
      UiM.bind (uiEmit (UIEvent.markdown (indentStr level ++ "• " ++ metric)))
        (fun _ => emitMetrics rest level)

mutual

/-- `display_signal(signal_data, level=0)` from `app.py`.  On a
non-dictionary the else branch evaluates the f-string using the local
`indent`, which was never assigned on that path, so Python raises an
unbound-local error before emitting anything. -/
def display_signal : PyVal → ℕ → UiM Unit
  | PyVal.dict entries, level => displayEntries entries level
  | _, _ => uiThrow (PyExc.nameError "indent")
termination_by v _ => sizeOf v

/-- The `for key, value in signal_data.items()` loop. -/
def displayEntries : List (String × PyVal) → ℕ → UiM Unit
  | [], _ => UiM.pure ()
  | (key, value) :: rest, level =>
      UiM.bind (displayEntry key value level) (fun _ => displayEntries rest level)
termination_by es _ => sizeOf es

/-- The body of the loop of `display_signal` for one key/value pair. -/
def displayEntry (key : String) (value : PyVal) (level : ℕ) : UiM Unit :=
  let display_key := pyTitle (underscoreToSpace key)
  let indent := indentStr level
  if key = "signal" then
    uiEmit (UIEvent.markdown (indent ++ "• **Signal:** " ++ signalColor value))
  else if key = "confidence" then
    UiM.bind (uiEmit (UIEvent.markdown (indent ++ "• **Confidence:** " ++ pyStr value ++ "%")))
      (fun _ => UiM.bind (UiM.liftExcept (pyFloat value))
        (fun q => uiEmit (UIEvent.progress (q / 100))))
  else if key = "reasoning" then
    UiM.bind (uiEmit UIEvent.divider) (fun _ =>
      match value with
      | PyVal.dict subEntries => displayReasoningEntries subEntries level
      | _ => uiEmit (UIEvent.markdown (indent ++ "&nbsp;&nbsp;" ++ pyStr value)))
  else if key = "details" then
    UiM.bind (UiM.liftExcept (pySplit value)) (fun metrics => emitMetrics metrics level)
  else
    match value with
    | PyVal.dict subEntries =>
        UiM.bind (uiEmit (UIEvent.markdown (indent ++ " *<span style='color: grey'>**"
            ++ display_key ++ ":**</span>*")))
          (fun _ => display_signal (PyVal.dict subEntries) (level + 1))
    | _ =>
        uiEmit (UIEvent.markdown (indent ++ " *<span style='color: grey'>**"
          ++ display_key ++ ":**</span>*"))
termination_by (sizeOf value) + 1

/-- The `for sub_key, sub_value in value.items()` loop of the `reasoning`
branch. -/
def displayReasoningEntries : List (String × PyVal) → ℕ → UiM Unit
  | [], _ => UiM.pure ()
  | (sub_key, sub_value) :: rest, level =>
      UiM.bind (uiEmit (UIEvent.markdown (indentStr level ++ "**"
          ++ pyTitle (underscoreToSpace sub_key) ++ "**")))
        (fun _ => UiM.bind (display_signal sub_value (level + 1))
          (fun _ => displayReasoningEntries rest level))
termination_by es _ => sizeOf es

end

/- The results panel and the Run Analysis action of `main()`. -/

/-- Lines 248-251 of `app.py`: the confidence column of the decision panel.
The progress bar is filled with `float(decision['confidence'])` and the
label is `int(float(decision['confidence']) * 100)` percent. -/
def decisionConfidenceEvents (d : PyVal) : UiM Unit :=
  UiM.bind (uiEmit (UIEvent.markdown "**Confidence:**")) (fun _ =>
  UiM.bind (UiM.liftExcept (pySubscript d "confidence")) (fun c =>
  UiM.bind (UiM.liftExcept (pyFloat c)) (fun q =>
  UiM.bind (uiEmit (UIEvent.progress q)) (fun _ =>
  UiM.bind (UiM.liftExcept (pySubscript d "confidence")) (fun c2 =>
  UiM.bind (UiM.liftExcept (pyFloat c2)) (fun q2 =>
  uiEmit (UIEvent.markdown (toString (ratTrunc (q2 * 100)) ++ "%"))))))))

/-- The `for analyst, signal in result["analyst_signals"].items()` loop. -/
def renderAnalystSignals : List (String × PyVal) → UiM Unit
  | [] => UiM.pure ()
  | (analyst, signal) :: rest =>
      UiM.bind (uiEmit (UIEvent.expander ("## " ++ pyTitle (underscoreToSpace analyst))))
        (fun _ => UiM.bind (display_signal signal 0)
          (fun _ => renderAnalystSignals rest))

/-- Lines 226-262 of `app.py`: rendering of a truthy decision record. -/
def renderDecision (show_reasoning : Bool) (d : PyVal) (signals : PyVal) : UiM Unit :=
  UiM.bind (uiEmit (UIEvent.subheader "Trading Decision")) (fun _ =>
  UiM.bind (UiM.liftExcept (pySubscript d "action")) (fun action =>
  UiM.bind (UiM.liftExcept (pyLower action)) (fun action_lower =>
  let action_color := (List.lookup action_lower
      [("buy", "green"), ("sell", "red"), ("hold", "orange")]).getD "blue"
  UiM.bind (uiEmit (UIEvent.markdown "**Action:**")) (fun _ =>
  UiM.bind (UiM.liftExcept (pySubscript d "action")) (fun action2 =>
  UiM.bind (UiM.liftExcept (pyUpper action2)) (fun action_upper =>
  UiM.bind (uiEmit (UIEvent.markdown (":" ++ action_color ++ "[" ++ action_upper ++ "]"))) (fun _ =>
  UiM.bind (uiEmit (UIEvent.markdown "**Quantity:**")) (fun _ =>
  UiM.bind (UiM.liftExcept (pySubscript d "quantity")) (fun quantity =>
  UiM.bind (uiEmit (UIEvent.markdown (pyStr quantity))) (fun _ =>
  UiM.bind (decisionConfidenceEvents d) (fun _ =>
  UiM.bind (uiEmit (UIEvent.markdown "**Reasoning:**")) (fun _ =>
  UiM.bind (UiM.liftExcept (pySubscript d "reasoning")) (fun reasoning =>
  UiM.bind (uiEmit (UIEvent.info (pyStr reasoning))) (fun _ =>
  if show_reasoning && pyTruthy signals then
    UiM.bind (uiEmit (UIEvent.subheader "Analyst Signals")) (fun _ =>
    UiM.bind (UiM.liftExcept (pyItems signals)) (fun items =>
    renderAnalystSignals items))
  else UiM.pure ()))))))))))))))

/-- Line 264 of `app.py`. -/
def noValidDecision : UiM Unit :=
  uiEmit (UIEvent.error "No valid trading decision was generated.")

/-- Lines 221-264 of `app.py`: display of the run result. -/
def renderResults (show_reasoning : Bool) (result : RunResult) : UiM Unit :=
  UiM.bind (uiEmit (UIEvent.header "Analysis Results")) (fun _ =>
    match result.decision with
    | Option.some d =>
        if pyTruthy d then renderDecision show_reasoning d result.analyst_signals
        else noValidDecision
    | Option.none => noValidDecision)

/-- The portfolio dictionary built in `main()` from the two number inputs. -/
def portfolioDict (initial_cash : ℚ) (initial_stock : ℤ) : PyVal :=
  PyVal.dict [("cash", PyVal.num initial_cash), ("stock", PyVal.num (initial_stock : ℚ))]

/-- The body of the `try:` block of the Run Analysis action (lines 207-264):
build the portfolio, run the pipeline once, render the results. -/
def runBody (loads : String → Except PyExc PyVal)
    (invoke : StateGraph → AgentState → Except PyExc AgentState)
    (ticker start_date end_date : String) (initial_cash : ℚ) (initial_stock : ℤ)
    (show_reasoning : Bool) (selected_analysts : List String) : RunM Unit :=
  RunM.bind (run_hedge_fund loads invoke ticker start_date end_date
      (portfolioDict initial_cash initial_stock) show_reasoning
      (Option.some selected_analysts))
    (fun result => liftUi (renderResults show_reasoning result))

/-- The Run Analysis click action (lines 204-267): a spinner, then the body
inside a top-level `try`/`except` whose handler shows one error message. -/
def runAction (loads : String → Except PyExc PyVal)
    (invoke : StateGraph → AgentState → Except PyExc AgentState)
    (ticker start_date end_date : String) (initial_cash : ℚ) (initial_stock : ℤ)
    (show_reasoning : Bool) (selected_analysts : List String) : RunM Unit :=
  RunM.bind (liftUi (uiEmit (UIEvent.spinner "Running hedge fund analysis...")))
    (fun _ => RunM.tryCatch
      (runBody loads invoke ticker start_date end_date initial_cash initial_stock
        show_reasoning selected_analysts)
      (fun e => uiEmit (UIEvent.error ("An error occurred: " ++ pyExcMessage e))))

/- Characterization of `create_workflow`. -/

theorem dictGet_mem (k : String) (h : k ∈ analystKeys) :
    dictGet analyst_nodes k = Except.ok (nodeName k, nodeFnOf k) := by
  simp only [analystKeys, List.mem_cons, List.not_mem_nil, or_false] at h
  rcases h with rfl | rfl | rfl | rfl <;> rfl

theorem dictGet_not_mem (k : String) (h : k ∉ analystKeys) :
    dictGet analyst_nodes k = Except.error (PyExc.keyError k) := by
  simp only [analystKeys, List.mem_cons, List.not_mem_nil, or_false, not_or] at h
  obtain ⟨h1, h2, h3, h4⟩ := h
  simp [dictGet, analyst_nodes, List.lookup,
    beq_eq_false_iff_ne.mpr h1, beq_eq_false_iff_ne.mpr h2,
    beq_eq_false_iff_ne.mpr h3, beq_eq_false_iff_ne.mpr h4]

theorem addAnalystNodes_ok (sel : List String) (h : ∀ k ∈ sel, k ∈ analystKeys)
    (g : StateGraph) :
    addAnalystNodes sel g = Except.ok
      { g with
        nodes := g.nodes ++ sel.map (fun k => (nodeName k, nodeFnOf k)),
        edges := g.edges ++ sel.map (fun k => ("start_node", nodeName k)) } := by
  induction sel generalizing g with
  | nil => simp [addAnalystNodes]
  | cons a rest ih =>
      have ha : a ∈ analystKeys := h a (List.mem_cons_self a rest)
      have hrest : ∀ k ∈ rest, k ∈ analystKeys := fun k hk => h k (List.mem_cons_of_mem a hk)
      simp only [addAnalystNodes, dictGet_mem a ha]
      rw [ih hrest]
      simp [StateGraph.add_node, StateGraph.add_edge]

theorem addRiskEdges_ok (sel : List String) (h : ∀ k ∈ sel, k ∈ analystKeys)
    (g : StateGraph) :
    addRiskEdges sel g = Except.ok
      { g with
        edges := g.edges ++ sel.map (fun k => (nodeName k, "risk_management_agent")) } := by
  induction sel generalizing g with
  | nil => simp [addRiskEdges]
  | cons a rest ih =>
      have ha : a ∈ analystKeys := h a (List.mem_cons_self a rest)
      have hrest : ∀ k ∈ rest, k ∈ analystKeys := fun k hk => h k (List.mem_cons_of_mem a hk)
      simp only [addRiskEdges, dictGet_mem a ha]
      rw [ih hrest]
      simp [StateGraph.add_edge]

theorem create_workflow_ok (sel : List String) (h : ∀ k ∈ sel, k ∈ analystKeys) :
    create_workflow (Option.some sel) = Except.ok (goodGraph sel) := by
  simp only [create_workflow, Option.getD]
  rw [addAnalystNodes_ok sel h]
  dsimp only
  rw [addRiskEdges_ok sel h]
  dsimp only
  simp [goodGraph, StateGraph.add_node, StateGraph.add_edge, StateGraph.set_entry_point]

/-- With no selection, the default is the full list of analyst keys. -/
theorem create_workflow_none_eq :
    create_workflow Option.none = Except.ok (goodGraph analystKeys) := by
  have h : ∀ k ∈ analystKeys, k ∈ analystKeys := fun k hk => hk
  calc create_workflow Option.none = create_workflow (Option.some analystKeys) := rfl
    _ = Except.ok (goodGraph analystKeys) := create_workflow_ok analystKeys h

theorem addAnalystNodes_bad (sel : List String) (h : ∃ k ∈ sel, k ∉ analystKeys) :
    ∀ g : StateGraph, ∃ k, k ∈ sel ∧ k ∉ analystKeys ∧
      addAnalystNodes sel g = Except.error (PyExc.keyError k) := by
  induction sel with
  | nil => simp at h
  | cons a rest ih =>
      intro g
      by_cases ha : a ∈ analystKeys
      · have hrest : ∃ k ∈ rest, k ∉ analystKeys := by
          rcases h with ⟨k, hk, hnk⟩
          rcases List.mem_cons.mp hk with rfl | hk2
          · exact absurd ha hnk
          · exact ⟨k, hk2, hnk⟩
        obtain ⟨k, hk, hnk, heq⟩ := ih hrest
          ((g.add_node (nodeName a) (nodeFnOf a)).add_edge "start_node" (nodeName a))
        refine ⟨k, List.mem_cons_of_mem a hk, hnk, ?_⟩
        simp only [addAnalystNodes, dictGet_mem a ha]
        exact heq
      · refine ⟨a, List.mem_cons_self a rest, ha, ?_⟩
        simp only [addAnalystNodes, dictGet_not_mem a ha]

/-- A selection containing an unknown key makes `create_workflow` raise
that `KeyError` before the graph is finished. -/
theorem create_workflow_bad (sel : List String) (h : ∃ k ∈ sel, k ∉ analystKeys) :
    ∃ k, k ∈ sel ∧ k ∉ analystKeys ∧
      create_workflow (Option.some sel) = Except.error (PyExc.keyError k) := by
  obtain ⟨k, hk, hnk, heq⟩ := addAnalystNodes_bad sel h
    (StateGraph.add_node ⟨[], [], Option.none⟩ "start_node" NodeFn.identity)
  refine ⟨k, hk, hnk, ?_⟩
  simp only [create_workflow, Option.getD]
  rw [heq]

/- Acyclicity of the built graph. -/

theorem nodeRank_nodeName (k : String) (h : k ∈ analystKeys) :
    nodeRank (nodeName k) = 1 := by
  simp only [analystKeys, List.mem_cons, List.not_mem_nil, or_false] at h
  rcases h with rfl | rfl | rfl | rfl <;> rfl

theorem goodGraph_edge_rank (sel : List String) (h : ∀ k ∈ sel, k ∈ analystKeys) :
    ∀ a b : String, (a, b) ∈ (goodGraph sel).edges → nodeRank a < nodeRank b := by
  intro a b hab
  simp only [goodGraph, List.mem_append, List.mem_map, List.mem_cons,
    List.not_mem_nil, or_false, Prod.mk.injEq] at hab
  rcases hab with ⟨k, hk, ha, hb⟩ | ⟨k, hk, ha, hb⟩ | ⟨ha, hb⟩ | ⟨ha, hb⟩ <;>
    subst ha <;> subst hb
  · rw [nodeRank_nodeName k (h k hk)]; decide
  · rw [nodeRank_nodeName k (h k hk)]; decide
  · decide
  · decide

/-- A rank function that strictly increases along edges rules out cycles. -/
theorem acyclic_of_rank (g : StateGraph)
    (hg : ∀ a b : String, (a, b) ∈ g.edges → nodeRank a < nodeRank b) :
    AcyclicGraph g := by
  have mono : ∀ a b : String, Relation.TransGen (EdgeRel g) a b → nodeRank a < nodeRank b := by
    intro a b hab
    induction hab with
    | single h1 => exact hg _ _ h1
    | tail h1 h2 ih => exact ih.trans (hg _ _ h2)
  intro a ha
  exact lt_irrefl (nodeRank a) (mono a a ha)

theorem goodGraph_acyclic (sel : List String) (h : ∀ k ∈ sel, k ∈ analystKeys) :
    AcyclicGraph (goodGraph sel) :=
  acyclic_of_rank _ (goodGraph_edge_rank sel h)

/-- C1: for every selection whose elements are among the four analyst keys,
`create_workflow` builds the graph with entry point `start_node`, whose node
set is `start_node`, one node per selected analyst, plus the risk and
portfolio managers, and whose edge set is exactly the fan-out from
`start_node` to each selected analyst, the fan-in from each selected analyst
to `risk_management_agent`, then `risk_management_agent →
portfolio_management_agent → END`; this edge set is acyclic. -/
theorem create_workflow_structure (sel : List String) (h : ∀ k ∈ sel, k ∈ analystKeys) :
    create_workflow (Option.some sel) = Except.ok (goodGraph sel)
    ∧ (goodGraph sel).entry = Option.some "start_node"
    ∧ (∀ n : String, n ∈ (goodGraph sel).nodes.map Prod.fst ↔
        (n = "start_node" ∨ (∃ k ∈ sel, n = nodeName k)
          ∨ n = "risk_management_agent" ∨ n = "portfolio_management_agent"))
    ∧ (∀ a b : String, (a, b) ∈ (goodGraph sel).edges ↔
        ((a = "start_node" ∧ ∃ k ∈ sel, b = nodeName k)
          ∨ ((∃ k ∈ sel, a = nodeName k) ∧ b = "risk_management_agent")
          ∨ (a = "risk_management_agent" ∧ b = "portfolio_management_agent")
          ∨ (a = "portfolio_management_agent" ∧ b = END_NODE)))
    ∧ AcyclicGraph (goodGraph sel) := by
  refine ⟨create_workflow_ok sel h, rfl, ?_, ?_, goodGraph_acyclic sel h⟩
  · intro n
    simp only [goodGraph, List.map_cons, List.map_append, List.map_map,
      List.mem_cons, List.mem_append, List.mem_map, Function.comp]
    constructor
    · rintro (rfl | ⟨k, hk, rfl⟩ | rfl | rfl | h0)
      · exact Or.inl rfl
      · exact Or.inr (Or.inl ⟨k, hk, rfl⟩)
      · exact Or.inr (Or.inr (Or.inl rfl))
      · exact Or.inr (Or.inr (Or.inr rfl))
      · simp at h0
    · rintro (rfl | ⟨k, hk, rfl⟩ | rfl | rfl)
      · exact Or.inl rfl
      · exact Or.inr (Or.inl ⟨k, hk, rfl⟩)
      · exact Or.inr (Or.inr (Or.inl rfl))
      · exact Or.inr (Or.inr (Or.inr (Or.inl rfl)))
  · intro a b
    simp only [goodGraph, List.mem_append, List.mem_map, List.mem_cons,
      List.not_mem_nil, or_false, Prod.mk.injEq]
    constructor
    · rintro (⟨k, hk, rfl, rfl⟩ | ⟨k, hk, rfl, rfl⟩ | ⟨rfl, rfl⟩ | ⟨rfl, rfl⟩)
      · exact Or.inl ⟨rfl, k, hk, rfl⟩
      · exact Or.inr (Or.inl ⟨⟨k, hk, rfl⟩, rfl⟩)
      · exact Or.inr (Or.inr (Or.inl ⟨rfl, rfl⟩))
      · exact Or.inr (Or.inr (Or.inr ⟨rfl, rfl⟩))
    · rintro (⟨rfl, k, hk, rfl⟩ | ⟨⟨k, hk, rfl⟩, rfl⟩ | ⟨rfl, rfl⟩ | ⟨rfl, rfl⟩)
      · exact Or.inl ⟨k, hk, rfl, rfl⟩
      · exact Or.inr (Or.inl ⟨k, hk, rfl, rfl⟩)
      · exact Or.inr (Or.inr (Or.inl ⟨rfl, rfl⟩))
      · exact Or.inr (Or.inr (Or.inr ⟨rfl, rfl⟩))

/-- C1 witness: the structure theorem applied to a concrete selection. -/
theorem create_workflow_structure_witness :
    (∀ k ∈ ["technical_analyst", "valuation_analyst"], k ∈ analystKeys)
    ∧ (create_workflow (Option.some ["technical_analyst", "valuation_analyst"])
          = Except.ok (goodGraph ["technical_analyst", "valuation_analyst"])
      ∧ (goodGraph ["technical_analyst", "valuation_analyst"]).entry
          = Option.some "start_node"
      ∧ (∀ n : String,
          n ∈ (goodGraph ["technical_analyst", "valuation_analyst"]).nodes.map Prod.fst ↔
          (n = "start_node"
            ∨ (∃ k ∈ ["technical_analyst", "valuation_analyst"], n = nodeName k)
            ∨ n = "risk_management_agent" ∨ n = "portfolio_management_agent"))
      ∧ (∀ a b : String,
          (a, b) ∈ (goodGraph ["technical_analyst", "valuation_analyst"]).edges ↔
          ((a = "start_node"
              ∧ ∃ k ∈ ["technical_analyst", "valuation_analyst"], b = nodeName k)
            ∨ ((∃ k ∈ ["technical_analyst", "valuation_analyst"], a = nodeName k)
                ∧ b = "risk_management_agent")
            ∨ (a = "risk_management_agent" ∧ b = "portfolio_management_agent")
            ∨ (a = "portfolio_management_agent" ∧ b = END_NODE)))
      ∧ AcyclicGraph (goodGraph ["technical_analyst", "valuation_analyst"])) :=
  ⟨by decide, create_workflow_structure ["technical_analyst", "valuation_analyst"] (by decide)⟩

/-- C9: `create_workflow(None)` defaults to all four analysts — it builds
exactly the graph built by passing the full key list, i.e. `goodGraph
analystKeys`, which contains the four analyst agent nodes — and any
selection containing an identifier outside the four keys raises `KeyError`
for such an identifier, so no workflow is returned. -/
theorem create_workflow_default_and_bad_key :
    create_workflow Option.none = create_workflow (Option.some analystKeys)
    ∧ create_workflow Option.none = Except.ok (goodGraph analystKeys)
    ∧ ∀ sel : List String, (∃ k ∈ sel, k ∉ analystKeys) →
        ∃ k, k ∈ sel ∧ k ∉ analystKeys ∧
          create_workflow (Option.some sel) = Except.error (PyExc.keyError k) :=
  ⟨rfl, create_workflow_none_eq, fun sel h => create_workflow_bad sel h⟩

/-- C9 witness: a selection with the unknown key `"bogus_analyst"`. -/
theorem create_workflow_default_and_bad_key_witness :
    (∃ k ∈ ["sentiment_analyst", "bogus_analyst"], k ∉ analystKeys)
    ∧ ∃ k, k ∈ ["sentiment_analyst", "bogus_analyst"] ∧ k ∉ analystKeys ∧
        create_workflow (Option.some ["sentiment_analyst", "bogus_analyst"])
          = Except.error (PyExc.keyError k) :=
  ⟨by decide, create_workflow_default_and_bad_key.2.2 ["sentiment_analyst", "bogus_analyst"] (by decide)⟩

/-- C7: workflow construction is deterministic and built fresh from its
argument alone — equal selections give graphs with the same node list,
edge list and entry point (the embedding is a pure function of the
selection, mirroring that `create_workflow` touches no state outside its
local `workflow` object). -/
theorem create_workflow_deterministic (sa1 sa2 : Option (List String))
    (g1 g2 : StateGraph) (h : sa1 = sa2)
    (h1 : create_workflow sa1 = Except.ok g1)
    (h2 : create_workflow sa2 = Except.ok g2) :
    g1.nodes = g2.nodes ∧ g1.edges = g2.edges ∧ g1.entry = g2.entry := by
  subst h
  rw [h1] at h2
  obtain rfl : g1 = g2 := by injection h2
  exact ⟨rfl, rfl, rfl⟩

/-- C7 witness: two clicks with the default selection build the same graph. -/
theorem create_workflow_deterministic_witness :
    (Option.none = (Option.none : Option (List String)))
    ∧ create_workflow Option.none = Except.ok (goodGraph analystKeys)
    ∧ create_workflow Option.none = Except.ok (goodGraph analystKeys)
    ∧ ((goodGraph analystKeys).nodes = (goodGraph analystKeys).nodes
      ∧ (goodGraph analystKeys).edges = (goodGraph analystKeys).edges
      ∧ (goodGraph analystKeys).entry = (goodGraph analystKeys).entry) :=
  ⟨rfl, create_workflow_none_eq, create_workflow_none_eq,
    create_workflow_deterministic Option.none Option.none (goodGraph analystKeys)
      (goodGraph analystKeys) rfl create_workflow_none_eq create_workflow_none_eq⟩

/-- C3: `parse_hedge_fund_response` returns the JSON-decode result on valid
input, and on any decode failure it emits one error message and returns
`None`; in both cases its own outcome is normal, so no exception reaches
the caller. -/
theorem parse_hedge_fund_response_spec (loads : String → Except PyExc PyVal)
    (response : String) :
    parse_hedge_fund_response loads response
      = match loads response with
        | Except.ok v => { events := [], outcome := Except.ok (Option.some v) }
        | Except.error _ =>
            { events := [UIEvent.error ("Error parsing response: " ++ response)],
              outcome := Except.ok Option.none } := by
  cases h : loads response <;>
    simp [parse_hedge_fund_response, UiM.tryCatch, UiM.bind, UiM.liftExcept,
      UiM.pure, uiEmit, h]

/-- The outcome of the response parser is always normal: the decoded value
or `None`. -/
theorem parse_outcome (loads : String → Except PyExc PyVal) (r : String) :
    (parse_hedge_fund_response loads r).outcome = Except.ok (loads r).toOption := by
  cases h : loads r <;>
    simp [parse_hedge_fund_response, UiM.tryCatch, UiM.bind, UiM.liftExcept,
      UiM.pure, uiEmit, h, Except.toOption]

/-- C2: when the compiled pipeline returns a final state with at least one
message, `run_hedge_fund` returns the two-field record whose `decision` is
the JSON-parse of the last message content and whose `analyst_signals` is
the `analyst_signals` of the final state's data (`RunResult` has exactly
those two fields). -/
theorem run_hedge_fund_returns (loads : String → Except PyExc PyVal)
    (invoke : StateGraph → AgentState → Except PyExc AgentState)
    (ticker start_date end_date : String) (portfolio : PyVal)
    (show_reasoning : Bool) (selected_analysts : Option (List String))
    (g : StateGraph) (final_state : AgentState) (last_message : Message)
    (hg : create_workflow selected_analysts = Except.ok g)
    (hinv : invoke g (initial_state ticker start_date end_date portfolio show_reasoning)
      = Except.ok final_state)
    (hlast : final_state.messages.getLast? = Option.some last_message) :
    (run_hedge_fund loads invoke ticker start_date end_date portfolio
        show_reasoning selected_analysts).outcome
      = Except.ok { decision := (loads last_message.content).toOption,
                    analyst_signals := final_state.data.analyst_signals } := by
  simp only [run_hedge_fund, RunM.outcome_bind, RunM.liftExcept, callInvoke, liftUi,
    RunM.pure, hg, hinv, listLast, hlast, parse_outcome]

/-- Concrete final state used by the witnesses below. -/
def wFinal : AgentState :=
  { messages := [⟨"decision"⟩],
    data := { ticker := "AAPL", portfolio := PyVal.dict [], start_date := "2024-01-01",
              end_date := "2024-04-01", analyst_signals := PyVal.dict [("x", PyVal.num 1)] },
    metadata := { show_reasoning := false } }

/-- Concrete JSON decoder used by the witnesses below. -/
def wLoads : String → Except PyExc PyVal :=
  fun _ => Except.ok (PyVal.dict [("action", PyVal.str "buy")])

/-- Concrete pipeline runtime used by the witnesses below. -/
def wInvoke : StateGraph → AgentState → Except PyExc AgentState :=
  fun _ _ => Except.ok wFinal

/-- C2 witness: the return-shape theorem at a concrete pipeline. -/
theorem run_hedge_fund_returns_witness :
    create_workflow Option.none = Except.ok (goodGraph analystKeys)
    ∧ wInvoke (goodGraph analystKeys)
        (initial_state "AAPL" "2024-01-01" "2024-04-01" (PyVal.dict []) false)
        = Except.ok wFinal
    ∧ wFinal.messages.getLast? = Option.some ⟨"decision"⟩
    ∧ (run_hedge_fund wLoads wInvoke "AAPL" "2024-01-01" "2024-04-01"
          (PyVal.dict []) false Option.none).outcome
        = Except.ok { decision := (wLoads "decision").toOption,
                      analyst_signals := wFinal.data.analyst_signals } :=
  ⟨create_workflow_none_eq, rfl, rfl,
    run_hedge_fund_returns wLoads wInvoke "AAPL" "2024-01-01" "2024-04-01"
      (PyVal.dict []) false Option.none (goodGraph analystKeys) wFinal ⟨"decision"⟩
      create_workflow_none_eq rfl rfl⟩

/-- C5: the initial state handed to the compiled pipeline carries exactly
the given ticker, portfolio, date range, an empty `analyst_signals` map and
the `show_reasoning` flag; moreover `run_hedge_fund` consults the runtime
only at that initial state, so runtimes that agree there give identical
results. -/
theorem run_hedge_fund_initial_state (ticker start_date end_date : String)
    (portfolio : PyVal) (show_reasoning : Bool) (sa : Option (List String)) :
    initial_state ticker start_date end_date portfolio show_reasoning
      = { messages := [⟨"Make a trading decision based on the provided data."⟩],
          data := { ticker := ticker, portfolio := portfolio, start_date := start_date,
                    end_date := end_date, analyst_signals := PyVal.dict [] },
          metadata := { show_reasoning := show_reasoning } }
    ∧ ∀ (loads : String → Except PyExc PyVal)
        (invoke1 invoke2 : StateGraph → AgentState → Except PyExc AgentState),
        (∀ g2 : StateGraph,
          invoke1 g2 (initial_state ticker start_date end_date portfolio show_reasoning)
            = invoke2 g2 (initial_state ticker start_date end_date portfolio show_reasoning)) →
        run_hedge_fund loads invoke1 ticker start_date end_date portfolio
            show_reasoning sa
          = run_hedge_fund loads invoke2 ticker start_date end_date portfolio
              show_reasoning sa := by
  refine ⟨rfl, ?_⟩
  intro loads invoke1 invoke2 hinv
  cases hcw : create_workflow sa with
  | error e => simp [run_hedge_fund, RunM.bind, RunM.liftExcept, hcw]
  | ok g => simp [run_hedge_fund, RunM.bind, RunM.liftExcept, hcw, callInvoke, hinv g]

/-- C5 witness: the factoring applied to a concrete runtime. -/
theorem run_hedge_fund_initial_state_witness :
    (∀ g2 : StateGraph,
      wInvoke g2 (initial_state "MSFT" "2024-01-01" "2024-04-01" (PyVal.dict []) true)
        = wInvoke g2 (initial_state "MSFT" "2024-01-01" "2024-04-01" (PyVal.dict []) true))
    ∧ run_hedge_fund wLoads wInvoke "MSFT" "2024-01-01" "2024-04-01" (PyVal.dict [])
        true (Option.some ["sentiment_analyst"])
      = run_hedge_fund wLoads wInvoke "MSFT" "2024-01-01" "2024-04-01" (PyVal.dict [])
          true (Option.some ["sentiment_analyst"]) :=
  ⟨fun _ => rfl,
    (run_hedge_fund_initial_state "MSFT" "2024-01-01" "2024-04-01" (PyVal.dict []) true
      (Option.some ["sentiment_analyst"])).2 wLoads wInvoke wInvoke (fun _ => rfl)⟩

/-- C8: `display_signal` raises an unbound-local `NameError` on every
non-dictionary input without emitting anything, because the else branch
reads the loop-local `indent` that was never assigned on that path; the
same error is reached through a non-dictionary sub-value under a
`reasoning` entry. -/
theorem display_signal_nondict_raises (value : PyVal) (level : ℕ)
    (h : value.isDict = false) :
    display_signal value level
        = { events := [], outcome := Except.error (PyExc.nameError "indent") }
    ∧ (display_signal (PyVal.dict [("reasoning", PyVal.dict [("note", value)])]) level).outcome
        = Except.error (PyExc.nameError "indent") := by
  have h1 : ∀ lv : ℕ, display_signal value lv
      = { events := [], outcome := Except.error (PyExc.nameError "indent") } := by
    intro lv
    cases value with
    | dict es => simp [PyVal.isDict] at h
    | none => simp [display_signal, uiThrow]
    | bool b => simp [display_signal, uiThrow]
    | num q => simp [display_signal, uiThrow]
    | str s => simp [display_signal, uiThrow]
    | list xs => simp [display_signal, uiThrow]
  refine ⟨h1 level, ?_⟩
  simp [display_signal, displayEntries, displayEntry, displayReasoningEntries,
    UiM.bind, uiEmit, UiM.pure, UiM.liftExcept, h1]

/-- C8 witness: a plain string signal raises the unbound-local error. -/
theorem display_signal_nondict_raises_witness :
    (PyVal.str "hello").isDict = false
    ∧ (display_signal (PyVal.str "hello") 0
          = { events := [], outcome := Except.error (PyExc.nameError "indent") }
      ∧ (display_signal (PyVal.dict [("reasoning", PyVal.dict [("note", PyVal.str "hello")])]) 0).outcome
          = Except.error (PyExc.nameError "indent")) :=
  ⟨rfl, display_signal_nondict_raises (PyVal.str "hello") 0 rfl⟩

/-- C10: the decision panel fills the progress bar with
`float(confidence)` and labels it `int(float(confidence) * 100)` percent
(a fraction scale), while `display_signal` labels the raw value and fills
the bar with `float(confidence) / 100` (a percentage scale). -/
theorem confidence_scale_mismatch (q : ℚ) (level : ℕ) :
    (decisionConfidenceEvents (PyVal.dict [("confidence", PyVal.num q)])).events
      = [UIEvent.markdown "**Confidence:**", UIEvent.progress q,
         UIEvent.markdown (toString (ratTrunc (q * 100)) ++ "%")]
    ∧ (display_signal (PyVal.dict [("confidence", PyVal.num q)]) level).events
      = [UIEvent.markdown (indentStr level ++ "• **Confidence:** " ++ pyStr (PyVal.num q) ++ "%"),
         UIEvent.progress (q / 100)] := by
  constructor
  · rfl
  · simp [display_signal, displayEntries, displayEntry, UiM.bind, uiEmit,
      UiM.liftExcept, pyFloat, UiM.pure]

/- C6: the rendering of dictionary entries by `display_signal`. -/

theorem UiM.bind_ok_inv {α β : Type} {x : UiM α} {f : α → UiM β} {b : β}
    (h : (UiM.bind x f).outcome = Except.ok b) :
    ∃ a : α, x.outcome = Except.ok a ∧ (f a).outcome = Except.ok b := by
  cases hx : x.outcome with
  | error e => rw [UiM.bind_outcome, hx] at h; cases h
  | ok a => rw [UiM.bind_outcome, hx] at h; exact ⟨a, rfl, h⟩

theorem emitMetrics_events (ms : List String) (level : ℕ) :
    (emitMetrics ms level).events
      = ms.map (fun m => UIEvent.markdown (indentStr level ++ "• " ++ m)) := by
  induction ms with
  | nil => rfl
  | cons m rest ih =>
      simp [emitMetrics, UiM.bind_events, uiEmit, ih]

/-- An entry whose processing finishes normally has emitted at least one
Streamlit call. -/
theorem displayEntry_ok_ne_nil (key : String) (value : PyVal) (level : ℕ)
    (h : (displayEntry key value level).outcome = Except.ok ()) :
    (displayEntry key value level).events ≠ [] := by
  rw [displayEntry.eq_def] at h ⊢
  by_cases h1 : key = "signal"
  · simp [h1, uiEmit]
  by_cases h2 : key = "confidence"
  · simp [h1, h2, UiM.bind_events, uiEmit]
  by_cases h3 : key = "reasoning"
  · simp [h1, h2, h3, UiM.bind_events, uiEmit]
  by_cases h4 : key = "details"
  · simp only [h1, h2, h3, h4, if_false, if_true, if_neg, if_pos, not_false_iff] at h ⊢
    cases value with
    | str s =>
        simp [UiM.bind_events, UiM.liftExcept, pySplit, emitMetrics_events, pySplitCS]
    | none => simp [UiM.bind_outcome, UiM.liftExcept, pySplit] at h
    | bool b => simp [UiM.bind_outcome, UiM.liftExcept, pySplit] at h
    | num q => simp [UiM.bind_outcome, UiM.liftExcept, pySplit] at h
    | list xs => simp [UiM.bind_outcome, UiM.liftExcept, pySplit] at h
    | dict es => simp [UiM.bind_outcome, UiM.liftExcept, pySplit] at h
  cases value with
  | dict es => simp [h1, h2, h3, h4, UiM.bind_events, uiEmit]
  | none => simp [h1, h2, h3, h4, uiEmit]
  | bool b => simp [h1, h2, h3, h4, uiEmit]
  | num q => simp [h1, h2, h3, h4, uiEmit]
  | str s => simp [h1, h2, h3, h4, uiEmit]
  | list xs => simp [h1, h2, h3, h4, uiEmit]

/-- The events of a normally-finishing entry loop are the concatenation of
the per-entry events, and each entry contributed output. -/
theorem displayEntries_ok_spec (entries : List (String × PyVal)) (level : ℕ)
    (h : (displayEntries entries level).outcome = Except.ok ()) :
    (displayEntries entries level).events
      = (entries.map (fun kv => (displayEntry kv.1 kv.2 level).events)).flatten
    ∧ ∀ kv ∈ entries, (displayEntry kv.1 kv.2 level).events ≠ [] := by
  induction entries with
  | nil => simp [displayEntries, UiM.pure]
  | cons kv rest ih =>
      obtain ⟨k, v⟩ := kv
      have hstep : displayEntries ((k, v) :: rest) level
          = UiM.bind (displayEntry k v level) (fun _ => displayEntries rest level) := by
        rw [displayEntries]
      rw [hstep] at h ⊢
      obtain ⟨a, hE, hR⟩ := UiM.bind_ok_inv h
      obtain ⟨ihj, ihm⟩ := ih hR
      constructor
      · rw [UiM.bind_events, hE]
        simp [ihj]
      · intro kv hkv
        rcases List.mem_cons.mp hkv with rfl | hmem
        · exact displayEntry_ok_ne_nil k v level hE
        · exact ihm kv hmem

/-- C6 counterexample: on `{'foo': 'bar'}` the simple-value branch emits a
single markdown that shows the title-cased field name only — the value
`'bar'` appears nowhere in the output, so entries are not rendered "with
field name and value" as claimed. -/
theorem display_signal_value_dropped :
    (display_signal (PyVal.dict [("foo", PyVal.str "bar")]) 0).events
      = [UIEvent.markdown " *<span style='color: grey'>**Foo:**</span>*"]
    ∧ ¬ List.IsInfix "bar".data (" *<span style='color: grey'>**Foo:**</span>*").data := by
  constructor
  · simp only [display_signal, displayEntries, displayEntry, UiM.bind, uiEmit, UiM.pure]
    decide
  · decide

/-- C6 (amended): `display_signal` renders each key/value pair of a
dictionary as follows — a `signal` entry gets its colored label; a
`confidence` entry gets the raw-value label followed, when float
conversion succeeds, by the progress bar at value/100; a `reasoning`
entry gets a divider followed, for a dictionary value, by each sub-key's
bold title and the recursive rendering of the sub-value at `level + 1`,
and otherwise by the indented value text; a `details` entry with a string
value gets one markdown per comma-separated metric; a dictionary-valued
entry under any other key is rendered as its grey field name followed by
the recursive rendering at `level + 1`; and every other entry is rendered
by its grey field name alone — the value itself is omitted.  On a
dictionary whose processing finishes without an exception, the output is
the concatenation of these per-entry renderings, one non-empty block per
key/value pair. -/
theorem display_signal_entry_rendering :
    (∀ (entries : List (String × PyVal)) (level : ℕ),
      (display_signal (PyVal.dict entries) level).outcome = Except.ok () →
      (display_signal (PyVal.dict entries) level).events
          = (entries.map (fun kv => (displayEntry kv.1 kv.2 level).events)).flatten
        ∧ ∀ kv ∈ entries, (displayEntry kv.1 kv.2 level).events ≠ [])
    ∧ (∀ (value : PyVal) (level : ℕ),
        (displayEntry "signal" value level).events
          = [UIEvent.markdown (indentStr level ++ "• **Signal:** " ++ signalColor value)])
    ∧ (∀ (value : PyVal) (level : ℕ),
        (displayEntry "confidence" value level).events
          = UIEvent.markdown (indentStr level ++ "• **Confidence:** " ++ pyStr value ++ "%")
            :: (match pyFloat value with
                | Except.ok q => [UIEvent.progress (q / 100)]
                | Except.error _ => []))
    ∧ (∀ (value : PyVal) (level : ℕ),
        (displayEntry "reasoning" value level).events
          = UIEvent.divider
            :: (match value with
                | PyVal.dict es => (displayReasoningEntries es level).events
                | _ => [UIEvent.markdown (indentStr level ++ "&nbsp;&nbsp;" ++ pyStr value)]))
    ∧ (∀ (sub_key : String) (sub_value : PyVal) (rest : List (String × PyVal)) (level : ℕ),
        (displayReasoningEntries ((sub_key, sub_value) :: rest) level).events
          = UIEvent.markdown (indentStr level ++ "**" ++ pyTitle (underscoreToSpace sub_key) ++ "**")
            :: ((display_signal sub_value (level + 1)).events
              ++ (match (display_signal sub_value (level + 1)).outcome with
                  | Except.ok _ => (displayReasoningEntries rest level).events
                  | Except.error _ => [])))
    ∧ (∀ (value : PyVal) (level : ℕ),
        (displayEntry "details" value level).events
          = match pySplit value with
            | Except.ok ms => ms.map (fun m => UIEvent.markdown (indentStr level ++ "• " ++ m))
            | Except.error _ => [])
    ∧ (∀ (key : String) (value : PyVal) (level : ℕ),
        key ≠ "signal" → key ≠ "confidence" → key ≠ "reasoning" → key ≠ "details" →
        value.isDict = true →
        (displayEntry key value level).events
          = UIEvent.markdown (indentStr level ++ " *<span style='color: grey'>**"
              ++ pyTitle (underscoreToSpace key) ++ ":**</span>*")
            :: (display_signal value (level + 1)).events)
    ∧ (∀ (key : String) (value : PyVal) (level : ℕ),
        key ≠ "signal" → key ≠ "confidence" → key ≠ "reasoning" → key ≠ "details" →
        value.isDict = false →
        (displayEntry key value level).events
          = [UIEvent.markdown (indentStr level ++ " *<span style='color: grey'>**"
              ++ pyTitle (underscoreToSpace key) ++ ":**</span>*")]) := by
  refine ⟨?_, ?_, ?_, ?_, ?_, ?_, ?_, ?_⟩
  · intro entries level h
    have hd : display_signal (PyVal.dict entries) level = displayEntries entries level := by
      rw [display_signal]
    rw [hd] at h ⊢
    exact displayEntries_ok_spec entries level h
  · intro value level
    rw [displayEntry.eq_def]
    simp [uiEmit]
  · intro value level
    rw [displayEntry.eq_def]
    cases hf : pyFloat value <;>
      simp [UiM.bind_events, UiM.bind_outcome, uiEmit, UiM.liftExcept, hf]
  · intro value level
    rw [displayEntry.eq_def]
    cases value <;> simp [UiM.bind_events, uiEmit]
  · intro sub_key sub_value rest level
    rw [displayReasoningEntries]
    cases hs : (display_signal sub_value (level + 1)).outcome <;>
      simp [UiM.bind_events, UiM.bind_outcome, uiEmit, hs]
  · intro value level
    rw [displayEntry.eq_def]
    cases hs : pySplit value <;>
      simp [UiM.bind_events, uiEmit, UiM.liftExcept, hs, emitMetrics_events]
  · intro key value level h1 h2 h3 h4 hd
    cases value with
    | dict es =>
        rw [displayEntry.eq_def]
        simp only [h1, h2, h3, h4, if_neg, not_false_iff, if_false]
        rw [display_signal]
        simp [UiM.bind_events, uiEmit]
    | none => simp [PyVal.isDict] at hd
    | bool b => simp [PyVal.isDict] at hd
    | num q => simp [PyVal.isDict] at hd
    | str s => simp [PyVal.isDict] at hd
    | list xs => simp [PyVal.isDict] at hd
  · intro key value level h1 h2 h3 h4 hd
    rw [displayEntry.eq_def]
    cases value with
    | dict es => simp [PyVal.isDict] at hd
    | none => simp [h1, h2, h3, h4, uiEmit]
    | bool b => simp [h1, h2, h3, h4, uiEmit]
    | num q => simp [h1, h2, h3, h4, uiEmit]
    | str s => simp [h1, h2, h3, h4, uiEmit]
    | list xs => simp [h1, h2, h3, h4, uiEmit]

/-- C6 witness: the rendering theorem applied to a concrete entry. -/
theorem display_signal_entry_rendering_witness :
    ((display_signal (PyVal.dict [("status", PyVal.str "ok")]) 0).outcome = Except.ok ()
      ∧ ((display_signal (PyVal.dict [("status", PyVal.str "ok")]) 0).events
            = ([(("status" : String), PyVal.str "ok")].map
                (fun kv => (displayEntry kv.1 kv.2 0).events)).flatten
          ∧ ∀ kv ∈ [(("status" : String), PyVal.str "ok")],
              (displayEntry kv.1 kv.2 0).events ≠ []))
    ∧ (("status" : String) ≠ "signal" ∧ ("status" : String) ≠ "confidence"
        ∧ ("status" : String) ≠ "reasoning" ∧ ("status" : String) ≠ "details"
        ∧ (PyVal.str "ok").isDict = false
        ∧ (displayEntry "status" (PyVal.str "ok") 0).events
            = [UIEvent.markdown (indentStr 0 ++ " *<span style='color: grey'>**"
                ++ pyTitle (underscoreToSpace "status") ++ ":**</span>*")]) := by
  have hOut : (display_signal (PyVal.dict [("status", PyVal.str "ok")]) 0).outcome
      = Except.ok () := by
    simp [display_signal, displayEntries, displayEntry, UiM.bind, uiEmit, UiM.pure]
  exact ⟨⟨hOut, display_signal_entry_rendering.1 _ 0 hOut⟩,
    by decide, by decide, by decide, by decide, rfl,
    display_signal_entry_rendering.2.2.2.2.2.2.2 "status" (PyVal.str "ok") 0
      (by decide) (by decide) (by decide) (by decide) rfl⟩

/- C4: the top-level try/except of the Run Analysis action. -/

/-- `run_hedge_fund` invokes the compiled pipeline at most once. -/
theorem run_hedge_fund_invokes_le_one (loads : String → Except PyExc PyVal)
    (invoke : StateGraph → AgentState → Except PyExc AgentState)
    (ticker start_date end_date : String) (portfolio : PyVal)
    (show_reasoning : Bool) (selected_analysts : Option (List String)) :
    (run_hedge_fund loads invoke ticker start_date end_date portfolio
        show_reasoning selected_analysts).invokes ≤ 1 := by
  cases hcw : create_workflow selected_analysts with
  | error e =>
      simp [run_hedge_fund, RunM.invokes_bind, RunM.liftExcept, hcw]
  | ok g =>
      cases hinv : invoke g (initial_state ticker start_date end_date portfolio show_reasoning) with
      | error e =>
          simp [run_hedge_fund, RunM.invokes_bind, RunM.liftExcept, callInvoke, hcw, hinv]
      | ok fs =>
          cases hl : listLast fs.messages with
          | error e =>
              simp [run_hedge_fund, RunM.invokes_bind, RunM.liftExcept, callInvoke,
                liftUi, hcw, hinv, hl]
          | ok lm =>
              simp [run_hedge_fund, RunM.invokes_bind, RunM.liftExcept, callInvoke,
                liftUi, RunM.pure, hcw, hinv, hl, parse_outcome]

/-- The whole try-body invokes the pipeline at most once. -/
theorem runBody_invokes_le_one (loads : String → Except PyExc PyVal)
    (invoke : StateGraph → AgentState → Except PyExc AgentState)
    (ticker start_date end_date : String) (initial_cash : ℚ) (initial_stock : ℤ)
    (show_reasoning : Bool) (selected_analysts : List String) :
    (runBody loads invoke ticker start_date end_date initial_cash initial_stock
        show_reasoning selected_analysts).invokes ≤ 1 := by
  have h := run_hedge_fund_invokes_le_one loads invoke ticker start_date end_date
    (portfolioDict initial_cash initial_stock) show_reasoning (Option.some selected_analysts)
  rw [runBody, RunM.invokes_bind]
  cases hout : (run_hedge_fund loads invoke ticker start_date end_date
      (portfolioDict initial_cash initial_stock) show_reasoning
      (Option.some selected_analysts)).outcome <;> simp [liftUi] <;> omega

/-- C4: the Run Analysis action never lets an exception escape (its outcome
is always normal), invokes the pipeline at most once per click, and when
the try-body raises, the displayed events are exactly the body's output
followed by the single `An error occurred: ...` message — no retry. -/
theorem runAction_catches_all (loads : String → Except PyExc PyVal)
    (invoke : StateGraph → AgentState → Except PyExc AgentState)
    (ticker start_date end_date : String) (initial_cash : ℚ) (initial_stock : ℤ)
    (show_reasoning : Bool) (selected_analysts : List String) :
    (runAction loads invoke ticker start_date end_date initial_cash initial_stock
        show_reasoning selected_analysts).outcome = Except.ok ()
    ∧ (runAction loads invoke ticker start_date end_date initial_cash initial_stock
        show_reasoning selected_analysts).invokes ≤ 1
    ∧ ∀ e : PyExc,
        (runBody loads invoke ticker start_date end_date initial_cash initial_stock
            show_reasoning selected_analysts).outcome = Except.error e →
        (runAction loads invoke ticker start_date end_date initial_cash initial_stock
            show_reasoning selected_analysts).events
          = UIEvent.spinner "Running hedge fund analysis..."
              :: ((runBody loads invoke ticker start_date end_date initial_cash
                    initial_stock show_reasoning selected_analysts).events
                ++ [UIEvent.error ("An error occurred: " ++ pyExcMessage e)]) := by
  have hb := runBody_invokes_le_one loads invoke ticker start_date end_date
    initial_cash initial_stock show_reasoning selected_analysts
  refine ⟨?_, ?_, ?_⟩
  · cases hout : (runBody loads invoke ticker start_date end_date initial_cash
        initial_stock show_reasoning selected_analysts).outcome with
    | error e =>
        simp [runAction, RunM.outcome_bind, RunM.tryCatch, liftUi, uiEmit, hout]
    | ok a =>
        cases a
        simp [runAction, RunM.outcome_bind, RunM.tryCatch, liftUi, uiEmit, hout]
  · cases hout : (runBody loads invoke ticker start_date end_date initial_cash
        initial_stock show_reasoning selected_analysts).outcome with
    | error e =>
        simp only [runAction, RunM.invokes_bind, RunM.tryCatch, liftUi, uiEmit, hout]
        simpa using hb
    | ok a =>
        cases a
        simp only [runAction, RunM.invokes_bind, RunM.tryCatch, liftUi, uiEmit, hout]
        simpa using hb
  · intro e hout
    simp [runAction, RunM.events_bind, RunM.tryCatch, liftUi, uiEmit, hout]

/-- Concrete failing pipeline runtime used by the C4 witness. -/
def wInvokeFail : StateGraph → AgentState → Except PyExc AgentState :=
  fun _ _ => Except.error PyExc.typeError

/-- C4 witness: a raising pipeline at a concrete click. -/
theorem runAction_catches_all_witness :
    (runBody wLoads wInvokeFail "AAPL" "2024-01-01" "2024-04-01" 100000 0 false
        ["technical_analyst"]).outcome = Except.error PyExc.typeError
    ∧ (runAction wLoads wInvokeFail "AAPL" "2024-01-01" "2024-04-01" 100000 0 false
        ["technical_analyst"]).events
      = UIEvent.spinner "Running hedge fund analysis..."
          :: ((runBody wLoads wInvokeFail "AAPL" "2024-01-01" "2024-04-01" 100000 0 false
                ["technical_analyst"]).events
            ++ [UIEvent.error ("An error occurred: " ++ pyExcMessage PyExc.typeError)]) :=
  ⟨rfl,
    (runAction_catches_all wLoads wInvokeFail "AAPL" "2024-01-01" "2024-04-01" 100000 0 false
      ["technical_analyst"]).2.2 PyExc.typeError rfl⟩
